import Mathlib

/-!
Verification development for the `monalisten` client library.

The definitions below are a shallow embedding of `src/monalisten/_core.py`
(payload authentication, hook registration and the per-envelope pipeline
`Monalisten._handle_event`) and `src/monalisten/_sse.py` (the SSE reconnect
loop `aiter_sse_retrying`).

Modelling conventions:
* A JSON-ish payload value is either a string or an object; Python
  truthiness (`""` and `{}` are falsy) is `Value.truthy`.
* An event-data dict is an association list with first-match lookup
  (Python dicts have unique keys, so this is faithful for the inputs the
  client sees).
* Hooks are identified by natural numbers; a behaviour function
  `beh : Nat -> Option Nat` gives, for each hook, `none` when the coroutine
  completes normally and `some e` when it raises exception `e`.
* `asyncio.gather` without `return_exceptions` raises the exception of a
  failing child; with a single failing hook this is deterministic, and we
  model it as the first failing hook in launch order.
* External collaborators of `_core.py` (`githubkit.webhooks.verify` and
  `webhooks.parse_obj`) are abstract parameters (`verify`, `parse`).
* Python-level crashes that are not raised deliberately by the client
  (`KeyError` from `event_data["body"]`, a non-string event name reaching
  the external parser) are modelled as `Result.pyError`.
-/

namespace Monalisten

/-- A JSON value as far as the client inspects it: header values are
strings; `body` is a JSON object. -/
inductive Value where
  | str : String → Value
  | obj : List (String × Value) → Value

/-- Python truthiness of a `Value`: empty strings and empty objects are
falsy. -/
def Value.truthy : Value → Bool
  | .str s => !(s == "")
  | .obj l => !l.isEmpty

/-- The prepared event data: a dict from case-folded header names (plus
`"body"`) to values, modelled as an association list. -/
abbrev Dict := List (String × Value)

/-- Python's `d.get(k)` on a dict. -/
def dget (d : Dict) (k : String) : Option Value :=
  (d.find? (fun p => p.1 == k)).map (·.2)

/-- Constant `EVENT_HEADER = "x-github-event"` from `_core.py`. -/
def EVENT_HEADER : String := "x-github-event"

/-- Constant `SIG_HEADER = "x-hub-signature-256"` from `_core.py`. -/
def SIG_HEADER : String := "x-hub-signature-256"

/-- The `AuthIssue` enum from `_core.py`. -/
inductive AuthIssue where
  | missing
  | unexpected
  | mismatch
deriving DecidableEq, Repr

/-- Python truthiness of the client's optional token (`not self._token`):
`None` and the empty string are falsy. -/
def tokenTruthy : Option String → Bool
  | none => false
  | some t => !(t == "")

/-- The mutable state of a `Monalisten` client that the pipeline reads:
the configured token, the `_hooks` defaultdict (event name / `"*"` to hook
list), and the three `_meta_hooks` lists. -/
structure Client where
  token : Option String
  hooks : List (String × List Nat)
  readyHooks : List Nat
  authIssueHooks : List Nat
  errorHooks : List Nat

/-- Lookup `self._hooks.get(kind, [])`. -/
def hooksOf (c : Client) (k : String) : List Nat :=
  ((c.hooks.find? (fun p => p.1 == k)).map (·.2)).getD []

/-- Embeds `dispatch_hooks` (lines 205-209 of `_core.py`): `asyncio.gather` over
the hooks.  Every hook in the list is invoked; the value is `none` when
all complete normally and `some e` when a hook raises `e` (first failing
hook in launch order), in which case the exception propagates to the
awaiting caller. -/
def dispatchHooks (beh : Nat → Option Nat) (hs : List Nat) : Option Nat :=
  hs.findSome? beh

/-- Embeds `Monalisten._passes_auth` (lines 90-104 of `_core.py`).  Returns the
boolean outcome together with the auth issues reported (each one is an
awaited `dispatch_hooks` on the `auth_issue` meta-hooks, in order, before
the boolean is returned).  `Except.error ()` is the `KeyError` raised by
`event_data["body"]` when a token is set, a truthy signature is present,
and no `body` key exists. -/
def passes_auth (token : Option String) (verify : String → Value → Value → Bool)
    (ed : Dict) : Except Unit (Bool × List AuthIssue) :=
  if tokenTruthy token = false then
    -- `if not self._token: if SIG_HEADER in event_data: report UNEXPECTED; return True`
    .ok (true, if (dget ed SIG_HEADER).isSome then [AuthIssue.unexpected] else [])
  else
    -- `if not (signature := event_data.get(SIG_HEADER)): report MISSING; return False`
    match dget ed SIG_HEADER with
    | none => .ok (false, [AuthIssue.missing])
    | some sig =>
      if sig.truthy = false then .ok (false, [AuthIssue.missing])
      else
        match dget ed "body" with
        | none => .error ()
        | some body =>
          if verify (token.getD "") body sig then .ok (true, [])
          else .ok (false, [AuthIssue.mismatch])

/-- Error message of `_handle_event` when `x-github-event` is absent or
falsy (the f-string on line 169 of `_core.py`). -/
def MSG_NO_HEADER : String := "received data is missing the " ++ EVENT_HEADER ++ " header"

/-- Error message of `_handle_event` when `body` is absent or falsy. -/
def MSG_NO_BODY : String := "received data doesn't contain a body"

/-- Error message of `_handle_event` when the external parser rejects the
payload. -/
def MSG_PARSE : String := "the received payload could not be parsed as an event"

/-- One observable dispatch performed while handling an envelope: a
`dispatch_hooks` call on the `auth_issue` meta-hooks, on the `error`
meta-hooks, or on the matched event hooks.  Each action records the hook
list that was launched. -/
inductive Action where
  | authIssue : AuthIssue → List Nat → Action
  | errorHooks : String → List Nat → Action
  | eventHooks : List Nat → Action
deriving DecidableEq, Repr

/-- How one `_handle_event` call ends. -/
inductive Result where
  /-- Empty prepared dict: silently skipped (line 161-162). -/
  | skippedEmpty
  /-- Auth failed: `_passes_auth` returned `False`: dispatch skipped (line 164-165). -/
  | skippedAuth
  /-- Routed: `_raise` found registered error hooks and dispatched the error to
  them; `_handle_event` returned normally. -/
  | routed : String → Result
  /-- Raised: `_raise` found no error hooks and raised `MonalistenError(msg)`,
  which propagates to the caller of `listen()`. -/
  | raisedPreproc : String → Result
  /-- The event hooks were dispatched and all completed normally. -/
  | completed
  /-- A hook raised exception `e`, which propagated out of
  `dispatch_hooks` (and hence out of `listen()`). -/
  | hookExc : Nat → Result
  /-- An unhandled Python-level error (`KeyError` for a missing `body`
  during verification, or a non-string event name reaching the parser). -/
  | pyError
deriving DecidableEq, Repr

/-- Embeds `Monalisten._raise` (lines 111-120 of `_core.py`): dispatch to the
`error` meta-hooks when any are registered, otherwise raise
`MonalistenError(message)`.  `acts` is the trace accumulated so far. -/
def raiseErr (c : Client) (beh : Nat → Option Nat) (msg : String)
    (acts : List Action) : List Action × Result :=
  if c.errorHooks.isEmpty then (acts, Result.raisedPreproc msg)
  else
    match dispatchHooks beh c.errorHooks with
    | some e => (acts ++ [Action.errorHooks msg c.errorHooks], Result.hookExc e)
    | none => (acts ++ [Action.errorHooks msg c.errorHooks], Result.routed msg)

/-- The hook list assembled on lines 187-192 of `_core.py`:
`chain.from_iterable(self._hooks.get(k, []) for k in (event_name, "*"))` —
the hooks registered on the event name itself, then the `"*"` hooks. -/
def dispatchList (c : Client) (eventName : String) : List Nat :=
  hooksOf c eventName ++ hooksOf c "*"

/-- Embeds `Monalisten._handle_event` (lines 160-192 of `_core.py`) on a prepared
event dict.  Returns the trace of `dispatch_hooks` calls and the final
result.  The stages, in source order: empty-dict skip, `_passes_auth`,
`x-github-event` presence/truthiness, `body` presence/truthiness, external
parse, hook dispatch. -/
def handle_event (c : Client) (beh : Nat → Option Nat)
    (verify : String → Value → Value → Bool) (parse : String → Value → Bool)
    (ed : Dict) : List Action × Result :=
  if ed.isEmpty then ([], Result.skippedEmpty)
  else
    match passes_auth c.token verify ed with
    | .error _ => ([], Result.pyError)
    | .ok (authOk, issues) =>
      let acts := issues.map (fun k => Action.authIssue k c.authIssueHooks)
      match issues.findSome? (fun _ => dispatchHooks beh c.authIssueHooks) with
      | some e => (acts, Result.hookExc e)
      | none =>
        if authOk = false then (acts, Result.skippedAuth)
        else
          match dget ed EVENT_HEADER with
          | none => raiseErr c beh MSG_NO_HEADER acts
          | some v =>
            if v.truthy = false then raiseErr c beh MSG_NO_HEADER acts
            else
              match dget ed "body" with
              | none => raiseErr c beh MSG_NO_BODY acts
              | some b =>
                if b.truthy = false then raiseErr c beh MSG_NO_BODY acts
                else
                  match v with
                  | .obj _ => (acts, Result.pyError)
                  | .str eventName =>
                    if parse eventName b = false then raiseErr c beh MSG_PARSE acts
                    else
                      match dispatchHooks beh (dispatchList c eventName) with
                      | some e =>
                        (acts ++ [Action.eventHooks (dispatchList c eventName)],
                          Result.hookExc e)
                      | none =>
                        (acts ++ [Action.eventHooks (dispatchList c eventName)],
                          Result.completed)

/-! ### Hook registration (`Monalisten.on`, `Monalisten.on_internal`,
`InternalNamespace.__call__`) -/

/-- Constant `VALID_META_EVENT_NAMES` from `_core.py`. -/
def VALID_META_EVENT_NAMES : List String := ["ready", "auth_issue", "error"]

/-- Append a hook to a defaultdict entry (`self._hooks[event].append(hook)`
on a `defaultdict(list)`). -/
def addHook (hs : List (String × List Nat)) (k : String) (h : Nat) :
    List (String × List Nat) :=
  match hs with
  | [] => [(k, [h])]
  | (k', l) :: rest =>
    if k' == k then (k', l ++ [h]) :: rest else (k', l) :: addHook rest k h

/-- Embeds `Monalisten.on` (lines 145-155 of `_core.py`; named `on_event` here
because `on` is notation in Mathlib): validate the event name
synchronously, raising a setup error (`MonalistenError`) for names outside
the valid set (other than `"*"`); otherwise register the hook.  The valid
event name set comes from the external parser
(`githubkit ... VALID_EVENT_NAMES`) and is a parameter here. -/
def on_event (validNames : List String) (c : Client) (event : String) (hook : Nat) :
    Except String Client :=
  if !validNames.contains event && !(event == "*") then
    .error ("Invalid event name: '" ++ event ++ "'")
  else
    .ok { c with hooks := addHook c.hooks event hook }

/-- Embeds `Monalisten.on_internal` (lines 133-143 of `_core.py`): validate the
internal event name synchronously, raising a setup error for unknown
names; otherwise append to the corresponding meta-hook list. -/
def on_internal (c : Client) (event : String) (hook : Nat) :
    Except String Client :=
  if !VALID_META_EVENT_NAMES.contains event then
    .error ("Invalid internal event name: '" ++ event ++ "'")
  else if event == "ready" then .ok { c with readyHooks := c.readyHooks ++ [hook] }
  else if event == "auth_issue" then
    .ok { c with authIssueHooks := c.authIssueHooks ++ [hook] }
  else .ok { c with errorHooks := c.errorHooks ++ [hook] }

/-- Embeds `InternalNamespace.__call__` (lines 68-73 of `_namespace.py`): using
the bare `internal` namespace as a decorator always raises a
`MonalistenSetupError`, for any decorated object. -/
def internalBareCall (_hook : Nat) : Except String Unit :=
  .error ("bare @Monalisten.internal is not allowed, please specify a concrete"
    ++ " internal event")

/-! ### The SSE reconnect loop (`_sse.py`, `aiter_sse_retrying`) -/

/-- A server-sent event as `httpx_sse` hands it to the loop: `id` defaults
to the empty string when the wire frame carries no `id:` field, and
`retry` is `None` (here `none`) when no `retry:` field was sent
(milliseconds otherwise). -/
structure Sse where
  id : String
  retry : Option Nat
deriving DecidableEq, Repr

/-- What one connection attempt yields before ending: a list of events
followed by either a clean end of stream (the `async for` finishes and the
loop `break`s) or an `httpx.ReadError`. -/
inductive ConnResult where
  | clean : List Sse → ConnResult
  | readError : List Sse → ConnResult
deriving DecidableEq, Repr

/-- Observable actions of `aiter_sse_retrying`.  `sleep delay attempt`
records the `asyncio.sleep` call on line 30 of `_sse.py`; its duration in
seconds is `sleepSeconds delay attempt` below. -/
inductive SseAction where
  | connect : List (String × String) → SseAction
  | yieldEv : Sse → SseAction
  | sleep : ℚ → ℕ → SseAction
deriving DecidableEq, Repr

/-- The duration of the sleep on line 30 of `_sse.py`:
`retry_delay + 2 ** (min(attempt, 10) / math.e)`, read over the reals. -/
noncomputable def sleepSeconds (delay : ℚ) (attempt : ℕ) : ℝ :=
  (delay : ℝ) + 2 ^ (((min attempt 10 : ℕ) : ℝ) / Real.exp 1)

/-- The headers built on line 22 of `_sse.py`:
`{"Last-Event-ID": last_event_id} if last_event_id else {}`.  The initial
`None` and an empty-string id are both falsy; both are modelled as `""`. -/
def connHeaders (lastEventId : String) : List (String × String) :=
  if lastEventId == "" then [] else [("Last-Event-ID", lastEventId)]

/-- The body of the `async for` on lines 24-27 of `_sse.py`: for each
event, unconditionally set `last_event_id ← sse.id` and
`retry_delay ← (sse.retry or 0) / 1000`, then yield the event.  Returns
the yield trace and the final `(last_event_id, retry_delay)` state. -/
def runConn (lastEventId : String) (retryDelay : ℚ) :
    List Sse → List SseAction × String × ℚ
  | [] => ([], lastEventId, retryDelay)
  | e :: es =>
    let rest := runConn e.id ((e.retry.getD 0 : ℚ) / 1000) es
    (SseAction.yieldEv e :: rest.1, rest.2)

/-- Embeds `aiter_sse_retrying` (lines 15-30 of `_sse.py`) run against a finite
script of connection outcomes, starting at attempt number `attempt` with
state `(lastEventId, retryDelay)`.  Each iteration of `for attempt in
count()` opens a connection with `connHeaders`; a clean end of stream
`break`s out of the loop (the rest of the script is unreachable); a
read error sleeps for `sleepSeconds` of the current state and retries
with the attempt counter incremented.  An exhausted script models a
connection that never returns. -/
def aiter_sse_retrying (attempt : ℕ) (lastEventId : String) (retryDelay : ℚ) :
    List ConnResult → List SseAction
  | [] => []
  | ConnResult.clean es :: _ =>
    SseAction.connect (connHeaders lastEventId) :: (runConn lastEventId retryDelay es).1
  | ConnResult.readError es :: rest =>
    let r := runConn lastEventId retryDelay es
    SseAction.connect (connHeaders lastEventId) ::
      (r.1 ++ SseAction.sleep r.2.2 attempt :: aiter_sse_retrying (attempt + 1) r.2.1 r.2.2 rest)

/-! ### Spec-side definition for the refinement claim about the auth
truth table -/

/-- The authentication truth table exactly as the spec states it
(spec §4.3): token null → pass, with an UNEXPECTED issue when a signature
is present; token set and signature absent → fail with MISSING; token set
and signature present → verify decides between pass (no issue) and fail
with MISMATCH.  This definition follows the spec's words and is compared
against `passes_auth`, which follows the source. -/
def authTable (tok : Option String) (verify : String → Value → Value → Bool)
    (ed : Dict) : Bool × List AuthIssue :=
  match tok with
  | none =>
    if (dget ed SIG_HEADER).isSome then (true, [AuthIssue.unexpected])
    else (true, [])
  | some t =>
    match dget ed SIG_HEADER with
    | none => (false, [AuthIssue.missing])
    | some s =>
      if verify t ((dget ed "body").getD (Value.obj [])) s then (true, [])
      else (false, [AuthIssue.mismatch])

/-! ### Concrete inputs used to evaluate the embedding -/

/-- A hook behaviour where every hook completes normally. -/
def behNone : Nat → Option Nat := fun _ => none

/-- A signature verifier that accepts everything. -/
def verifyAlways : String → Value → Value → Bool := fun _ _ _ => true

/-- A payload parser that accepts everything. -/
def parseAlways : String → Value → Bool := fun _ _ => true

/-- A well-formed `star` envelope with a body carrying an `action`. -/
def starEd : Dict :=
  [(EVENT_HEADER, Value.str "star"), ("body", Value.obj [("action", Value.str "created")])]

/-- A non-empty envelope with no `x-github-event` header, no `body` and no
signature. -/
def bareEd : Dict := [("foo", Value.str "bar")]

/-- Client for evaluating hook-failure propagation: no token, one hook
(id 1) on `star`, and an `error` meta-hook (id 99) registered. -/
def c1Client : Client :=
  { token := none, hooks := [("star", [1])], readyHooks := [],
    authIssueHooks := [], errorHooks := [99] }

/-- Behaviour where hook 1 raises exception 7 and every other hook
completes normally. -/
def c1Beh : Nat → Option Nat := fun n => if n == 1 then some 7 else none

/-- Client with a configured token and no hooks at all. -/
def c3Client : Client :=
  { token := some "secret", hooks := [], readyHooks := [],
    authIssueHooks := [], errorHooks := [] }

/-- Client with no token and one `error` meta-hook (id 9). -/
def c4Client : Client :=
  { token := none, hooks := [], readyHooks := [],
    authIssueHooks := [], errorHooks := [9] }

/-- Client with no token, one hook (id 2) on `star` and one wildcard hook
(id 1). -/
def c5Client : Client :=
  { token := none, hooks := [("star", [2]), ("*", [1])], readyHooks := [],
    authIssueHooks := [], errorHooks := [] }

/-- Whether a registration attempt succeeded (`Except.ok`) rather than
raising a setup error. -/
def exceptOk {ε α : Type _} : Except ε α → Bool
  | .ok _ => true
  | .error _ => false

/-- A signature verifier that rejects everything. -/
def verifyNever : String → Value → Value → Bool := fun _ _ _ => false

/-- A signed envelope with a body, used to evaluate the auth table. -/
def c2Ed : Dict :=
  [(SIG_HEADER, Value.str "sha256=ab"), ("body", Value.obj [("a", Value.str "b")])]

/-- An SSE with both an `id` and a `retry` field. -/
def sseA : Sse := { id := "a", retry := some 2000 }

/-- An SSE with neither an `id` nor a `retry` field, as `httpx_sse`
represents it (`id = ""`, `retry = None`). -/
def sseBlank : Sse := { id := "", retry := none }

/-! ## Helper lemmas -/

/-- A `findSome?` of a constantly-`none` function finds nothing. -/
theorem findSome?_const_none {α β : Type _} (l : List α) :
    l.findSome? (fun _ => (none : Option β)) = none := by
  induction l with
  | nil => rfl
  | cons a l ih => rw [List.findSome?]; exact ih

/-- The yield trace of one connection is exactly the received events. -/
theorem runConn_trace (l : String) (d : ℚ) (es : List Sse) :
    (runConn l d es).1 = es.map SseAction.yieldEv := by
  induction es generalizing l d with
  | nil => rfl
  | cons e es ih => simp [runConn, ih]

/-- After a non-empty batch of events, the loop state is determined by the
last event alone: `last_event_id` is its `id` and `retry_delay` is its
`retry / 1000` (with the defaults `""` and `0` for absent fields). -/
theorem runConn_last (l : String) (d : ℚ) (es : List Sse) (e : Sse)
    (h : es.getLast? = some e) :
    (runConn l d es).2 = (e.id, (e.retry.getD 0 : ℚ) / 1000) := by
  induction es generalizing l d with
  | nil => cases h
  | cons e' es ih =>
    cases es with
    | nil =>
      simp [List.getLast?] at h
      subst h
      rfl
    | cons e'' es' =>
      rw [List.getLast?_cons_cons] at h
      exact ih e'.id ((e'.retry.getD 0 : ℚ) / 1000) h

/-! ## Claim theorems -/

/-- Claim C9: a client constructed with the empty-string token behaves
identically to one with no token — for every payload, authentication
passes, the result does not depend on the verifier at all (no HMAC
verification happens), and an UNEXPECTED auth issue is reported exactly
when the `x-hub-signature-256` key is present in the payload. -/
theorem C9_empty_token_behaves_like_none (ed : Dict)
    (v1 v2 : String → Value → Value → Bool) :
    passes_auth (some "") v1 ed = passes_auth none v2 ed ∧
    passes_auth none v2 ed =
      Except.ok (true,
        if (dget ed SIG_HEADER).isSome then [AuthIssue.unexpected] else []) := by
  constructor <;> simp [passes_auth, tokenTruthy]

/-- Claim C10: with a configured non-empty token, a payload whose
`x-hub-signature-256` key is present but maps to the empty string is
treated as having no signature — the Authenticator fails with a MISSING
issue, not MISMATCH; with no token configured the very same payload
passes and reports UNEXPECTED, because that branch tests key presence,
not value truthiness. -/
theorem C10_falsy_signature (t : String) (ht : (t == "") = false) (ed : Dict)
    (verify : String → Value → Value → Bool)
    (hsig : dget ed SIG_HEADER = some (Value.str "")) :
    passes_auth (some t) verify ed = Except.ok (false, [AuthIssue.missing]) ∧
    passes_auth none verify ed = Except.ok (true, [AuthIssue.unexpected]) := by
  constructor
  · simp [passes_auth, tokenTruthy, ht, hsig, Value.truthy]
  · simp [passes_auth, tokenTruthy, hsig]

/-- Claim C10 witness: the theorem applied at token `"x"` and the payload
`[(SIG_HEADER, "")]`. -/
theorem C10_falsy_signature_witness :
    passes_auth (some "x") verifyAlways [(SIG_HEADER, Value.str "")]
      = Except.ok (false, [AuthIssue.missing]) ∧
    passes_auth none verifyAlways [(SIG_HEADER, Value.str "")]
      = Except.ok (true, [AuthIssue.unexpected]) :=
  C10_falsy_signature "x" rfl [(SIG_HEADER, Value.str "")] verifyAlways rfl

/-- Claim C1 (evaluation at the failing input): with an `internal.error`
hook (id 99) registered and the single `star` hook (id 1) raising
exception 7, handling a well-formed `star` envelope launches the event
hooks and then propagates the hook's exception to the caller of
`listen()`; no `error`-hook dispatch appears in the trace.  This
contradicts the claim that a non-fatal hook failure is routed to the
registered `internal.error` hooks instead of aborting the dispatch. -/
theorem C1_hook_failure_propagates_unrouted :
    handle_event c1Client c1Beh verifyAlways parseAlways starEd
      = ([Action.eventHooks [1]], Result.hookExc 7) ∧
    c1Client.errorHooks = [99] :=
  ⟨rfl, rfl⟩

/-- Claim C5 (evaluation at the failing input): for a `star` envelope the
code dispatches the hooks registered on the event name first and the
wildcard hooks second (`[2, 1]`, not wildcard-first), and the assembled
hook list has no action-level component at all — `_core.py`'s registry is
keyed by event name or `"*"` only. -/
theorem C5_dispatch_is_name_then_wildcard :
    handle_event c5Client behNone verifyAlways parseAlways starEd
      = ([Action.eventHooks [2, 1]], Result.completed) ∧
    dispatchList c5Client "star" = hooksOf c5Client "star" ++ hooksOf c5Client "*" ∧
    hooksOf c5Client "star" = [2] ∧ hooksOf c5Client "*" = [1] :=
  ⟨rfl, rfl, rfl, rfl⟩

/-- Claim C3 counterexample: a non-empty envelope with no
`x-github-event` header processed by a client with a configured token
reports a MISSING auth issue and is skipped by the Authenticator; its
preprocessing error is neither routed nor raised.  This falsifies the
claim that the presence checks run before the Authenticator and that such
an envelope always reports its root cause and never an auth issue. -/
theorem C3_counterexample :
    (∀ hs, ¬ Action.errorHooks MSG_NO_HEADER hs
        ∈ (handle_event c3Client behNone verifyAlways parseAlways bareEd).1) ∧
    (handle_event c3Client behNone verifyAlways parseAlways bareEd).2
        ≠ Result.raisedPreproc MSG_NO_HEADER ∧
    Action.authIssue AuthIssue.missing []
        ∈ (handle_event c3Client behNone verifyAlways parseAlways bareEd).1 := by
  refine ⟨?_, ?_, ?_⟩
  · intro hs h
    have he : (handle_event c3Client behNone verifyAlways parseAlways bareEd).1
        = [Action.authIssue AuthIssue.missing []] := rfl
    rw [he] at h
    simp at h
  · intro h
    have he : (handle_event c3Client behNone verifyAlways parseAlways bareEd).2
        = Result.skippedAuth := rfl
    rw [he] at h
    cases h
  · have he : (handle_event c3Client behNone verifyAlways parseAlways bareEd).1
        = [Action.authIssue AuthIssue.missing []] := rfl
    rw [he]
    exact List.mem_singleton.mpr rfl

/-- Claim C3 (amended): the Authenticator runs before the presence
checks.  For every non-empty envelope on which authentication fails, the
pipeline reports the auth issues (one awaited dispatch per issue) and
skips the envelope; no preprocessing error is routed or raised, whatever
fields the envelope is missing and whatever the parser would say. -/
theorem C3_amended_auth_runs_first (c : Client) (beh : Nat → Option Nat)
    (verify : String → Value → Value → Bool) (parse : String → Value → Bool)
    (ed : Dict) (is : List AuthIssue)
    (hne : ed.isEmpty = false)
    (hauth : passes_auth c.token verify ed = Except.ok (false, is))
    (hah : dispatchHooks beh c.authIssueHooks = none) :
    handle_event c beh verify parse ed
      = (is.map (fun k => Action.authIssue k c.authIssueHooks),
          Result.skippedAuth) := by
  simp only [handle_event, hne, hauth, hah, findSome?_const_none]
  simp

/-- Claim C3 (amended) witness: the amended theorem applied to the
header-less envelope `bareEd` and the token-carrying client `c3Client`. -/
theorem C3_amended_witness :
    handle_event c3Client behNone verifyAlways parseAlways bareEd
      = ([AuthIssue.missing].map (fun k => Action.authIssue k c3Client.authIssueHooks),
          Result.skippedAuth) :=
  C3_amended_auth_runs_first c3Client behNone verifyAlways parseAlways bareEd
    [AuthIssue.missing] rfl rfl rfl

/-- Claim C2: the Authenticator realises the spec's truth table.  For
every payload whose optional signature is either absent or a non-empty
string, every token that is either null or non-empty, and every verifier,
`passes_auth` returns exactly the outcome and the issue list that the
table `authTable` prescribes (the issue, when any, being dispatched and
awaited before the boolean is returned). -/
theorem C2_auth_truth_table (tok : Option String)
    (verify : String → Value → Value → Bool) (ed : Dict)
    (htok : tok = none ∨ ∃ t, tok = some t ∧ (t == "") = false)
    (hsig : dget ed SIG_HEADER = none ∨
      ∃ s, dget ed SIG_HEADER = some (Value.str s) ∧ (s == "") = false)
    (hbody : ∃ b, dget ed "body" = some b) :
    passes_auth tok verify ed = Except.ok (authTable tok verify ed) := by
  obtain ⟨b, hb⟩ := hbody
  rcases htok with rfl | ⟨t, rfl, ht⟩
  · rcases hsig with hs | ⟨s, hs, hsne⟩ <;>
      simp [passes_auth, authTable, tokenTruthy, hs]
  · rcases hsig with hs | ⟨s, hs, hsne⟩
    · simp [passes_auth, authTable, tokenTruthy, ht, hs]
    · cases hv : verify t b (Value.str s) <;>
        simp [passes_auth, authTable, tokenTruthy, ht, hs, hb, Value.truthy,
          hsne, hv]

/-- Claim C2 witness: the truth table theorem applied at token `"T"`, the
signed envelope `c2Ed` and the always-rejecting verifier (the MISMATCH
row). -/
theorem C2_witness :
    passes_auth (some "T") verifyNever c2Ed
      = Except.ok (authTable (some "T") verifyNever c2Ed) :=
  C2_auth_truth_table (some "T") verifyNever c2Ed
    (Or.inr ⟨"T", rfl, rfl⟩) (Or.inr ⟨"sha256=ab", rfl, rfl⟩)
    ⟨Value.obj [("a", Value.str "b")], rfl⟩

/-- Claim C4: for every preprocessing failure reached by the pipeline —
missing/falsy `x-github-event` header, missing/falsy `body`, or a payload
the parser rejects — an error with the exact source message is dispatched
to the registered `internal.error` hooks and the handler returns normally
(`listen()` continues), and when no error hook is registered a
`MonalistenError` with that same message is raised instead. -/
theorem C4_preproc_error_routing (c : Client) (beh : Nat → Option Nat)
    (verify : String → Value → Value → Bool) (parse : String → Value → Bool)
    (ed : Dict) (is : List AuthIssue)
    (hne : ed.isEmpty = false)
    (hauth : passes_auth c.token verify ed = Except.ok (true, is))
    (hah : dispatchHooks beh c.authIssueHooks = none)
    (heh : dispatchHooks beh c.errorHooks = none) :
    ((dget ed EVENT_HEADER = none ∨
        (∃ v, dget ed EVENT_HEADER = some v ∧ v.truthy = false)) →
      handle_event c beh verify parse ed
        = if c.errorHooks.isEmpty then
            (is.map (fun k => Action.authIssue k c.authIssueHooks),
              Result.raisedPreproc MSG_NO_HEADER)
          else
            (is.map (fun k => Action.authIssue k c.authIssueHooks)
                ++ [Action.errorHooks MSG_NO_HEADER c.errorHooks],
              Result.routed MSG_NO_HEADER)) ∧
    ((∃ v, dget ed EVENT_HEADER = some v ∧ v.truthy = true) →
      (dget ed "body" = none ∨ (∃ b, dget ed "body" = some b ∧ b.truthy = false)) →
      handle_event c beh verify parse ed
        = if c.errorHooks.isEmpty then
            (is.map (fun k => Action.authIssue k c.authIssueHooks),
              Result.raisedPreproc MSG_NO_BODY)
          else
            (is.map (fun k => Action.authIssue k c.authIssueHooks)
                ++ [Action.errorHooks MSG_NO_BODY c.errorHooks],
              Result.routed MSG_NO_BODY)) ∧
    ((∃ s b, dget ed EVENT_HEADER = some (Value.str s)
        ∧ (Value.str s).truthy = true
        ∧ dget ed "body" = some b ∧ b.truthy = true ∧ parse s b = false) →
      handle_event c beh verify parse ed
        = if c.errorHooks.isEmpty then
            (is.map (fun k => Action.authIssue k c.authIssueHooks),
              Result.raisedPreproc MSG_PARSE)
          else
            (is.map (fun k => Action.authIssue k c.authIssueHooks)
                ++ [Action.errorHooks MSG_PARSE c.errorHooks],
              Result.routed MSG_PARSE)) := by
  have hre : ∀ m,
      raiseErr c beh m (is.map (fun k => Action.authIssue k c.authIssueHooks))
        = if c.errorHooks.isEmpty then
            (is.map (fun k => Action.authIssue k c.authIssueHooks),
              Result.raisedPreproc m)
          else
            (is.map (fun k => Action.authIssue k c.authIssueHooks)
                ++ [Action.errorHooks m c.errorHooks],
              Result.routed m) := by
    intro m
    cases hi : c.errorHooks.isEmpty <;> simp [raiseErr, hi, heh]
  refine ⟨?_, ?_, ?_⟩
  · intro hh
    rcases hh with hh | ⟨v, hv, hvf⟩
    · simp only [handle_event, hne, hauth, hah, findSome?_const_none, hh]
      simp [hre]
    · simp only [handle_event, hne, hauth, hah, findSome?_const_none, hv, hvf]
      simp [hre]
  · rintro ⟨v, hv, hvt⟩ hb
    rcases hb with hb | ⟨b, hbv, hbf⟩
    · simp only [handle_event, hne, hauth, hah, findSome?_const_none, hv, hvt, hb]
      simp [hre]
    · simp only [handle_event, hne, hauth, hah, findSome?_const_none, hv, hvt,
        hbv, hbf]
      simp [hre]
  · rintro ⟨s, b, hv, hvt, hbv, hbt, hp⟩
    simp only [handle_event, hne, hauth, hah, findSome?_const_none, hv, hvt,
      hbv, hbt, hp]
    simp [hre]

/-- Claim C4 witness: the theorem applied to the header-less envelope
`bareEd` and the client `c4Client`, whose single error hook receives the
missing-header error while the handler returns normally. -/
theorem C4_witness :
    handle_event c4Client behNone verifyAlways parseAlways bareEd
      = if c4Client.errorHooks.isEmpty then
          (([] : List AuthIssue).map
              (fun k => Action.authIssue k c4Client.authIssueHooks),
            Result.raisedPreproc MSG_NO_HEADER)
        else
          (([] : List AuthIssue).map
              (fun k => Action.authIssue k c4Client.authIssueHooks)
              ++ [Action.errorHooks MSG_NO_HEADER c4Client.errorHooks],
            Result.routed MSG_NO_HEADER) :=
  (C4_preproc_error_routing c4Client behNone verifyAlways parseAlways bareEd []
    rfl rfl rfl rfl).1 (Or.inl rfl)

/-- Claim C8: registering against an event name outside the valid set
(and different from `"*"`), or against an unknown internal event name, or
through the bare `internal` namespace, fails synchronously with a setup
error at registration time; registration against a valid name (or a known
internal name) never raises. -/
theorem C8_registration_validation (validNames : List String) (c : Client)
    (ev : String) (h : Nat) :
    exceptOk (on_event validNames c ev h) = (validNames.contains ev || ev == "*") ∧
    exceptOk (on_internal c ev h) = VALID_META_EVENT_NAMES.contains ev ∧
    exceptOk (internalBareCall h) = false := by
  refine ⟨?_, ?_, rfl⟩
  · cases hc : validNames.contains ev <;> cases he : ev == "*" <;>
      simp_all [on_event, exceptOk]
  · cases hc : VALID_META_EVENT_NAMES.contains ev
    · simp_all [on_internal, exceptOk]
    · cases h1 : ev == "ready" <;> cases h2 : ev == "auth_issue" <;>
        simp_all [on_internal, exceptOk]

/-- Claim C6: in the reconnect loop, a transport read error on attempt `n`
yields the connection's events, sleeps for
`retry_delay + 2 ^ (min(n, 10) / e)` seconds with the retry delay current
at the failure, and reconnects with a `Last-Event-ID` header equal to the
last yielded event's id (`connHeaders` omits it when that id is the null
`""`); a clean end of stream terminates the loop without reconnecting. -/
theorem C6_reconnect_loop (n : ℕ) (l : String) (d : ℚ) (es : List Sse)
    (rest : List ConnResult) :
    aiter_sse_retrying n l d (ConnResult.readError es :: rest)
      = SseAction.connect (connHeaders l) ::
          (es.map SseAction.yieldEv ++
            SseAction.sleep (runConn l d es).2.2 n ::
              aiter_sse_retrying (n + 1) (runConn l d es).2.1 (runConn l d es).2.2
                rest) ∧
    aiter_sse_retrying n l d (ConnResult.clean es :: rest)
      = SseAction.connect (connHeaders l) :: es.map SseAction.yieldEv ∧
    (∀ e, es.getLast? = some e → (runConn l d es).2.1 = e.id) ∧
    (∀ o rest', rest = o :: rest' →
      ∃ tail,
        aiter_sse_retrying (n + 1) (runConn l d es).2.1 (runConn l d es).2.2 rest
          = SseAction.connect (connHeaders (runConn l d es).2.1) :: tail) ∧
    sleepSeconds (runConn l d es).2.2 n
      = ((runConn l d es).2.2 : ℝ) + 2 ^ (((min n 10 : ℕ) : ℝ) / Real.exp 1) := by
  refine ⟨?_, ?_, ?_, ?_, rfl⟩
  · simp [aiter_sse_retrying, runConn_trace]
  · simp [aiter_sse_retrying, runConn_trace]
  · intro e he
    exact congrArg Prod.fst (runConn_last l d es e he)
  · rintro o rest' rfl
    cases o with
    | clean es2 => exact ⟨_, rfl⟩
    | readError es2 => exact ⟨_, rfl⟩

/-- Claim C6 witness: after a read error on a connection that yielded one
event with id `"a"`, the state carries `"a"` and the next connection's
request carries the `Last-Event-ID` header built from it. -/
theorem C6_witness :
    (runConn "" 0 [sseA]).2.1 = sseA.id ∧
    (∃ tail,
      aiter_sse_retrying 1 (runConn "" 0 [sseA]).2.1 (runConn "" 0 [sseA]).2.2
          [ConnResult.clean []]
        = SseAction.connect (connHeaders (runConn "" 0 [sseA]).2.1) :: tail) :=
  ⟨(C6_reconnect_loop 0 "" 0 [sseA] [ConnResult.clean []]).2.2.1 sseA rfl,
    (C6_reconnect_loop 0 "" 0 [sseA] [ConnResult.clean []]).2.2.2.1
      (ConnResult.clean []) [] rfl⟩

/-- Claim C7 counterexample: an event with neither id nor retry does not
leave the loop state unchanged — processing it from state
`("a", 5)` resets the state to `("", 0)`. -/
theorem C7_counterexample :
    (runConn "a" 5 [sseBlank]).2 = ("", 0) ∧
    (runConn "a" 5 [sseBlank]).2 ≠ (("a" : String), (5 : ℚ)) := by
  constructor
  · simp [runConn, sseBlank]
  intro h
  have hfst : ("" : String) = "a" := congrArg Prod.fst h
  exact absurd hfst (by decide)

/-- Claim C7 (amended): on every incoming event the loop state is
overwritten unconditionally before the event is yielded —
`last_event_id` becomes the event's id (the empty string when the field
is absent) and `retry_delay` becomes its retry value divided by 1000
(zero when absent); after a batch the state equals the last event's
values, independent of the state before the batch. -/
theorem C7_amended_unconditional_overwrite (l : String) (d : ℚ) (e : Sse)
    (es : List Sse) :
    runConn l d (e :: es)
      = (SseAction.yieldEv e :: (runConn e.id ((e.retry.getD 0 : ℚ) / 1000) es).1,
          (runConn e.id ((e.retry.getD 0 : ℚ) / 1000) es).2) ∧
    (∀ e', (e :: es).getLast? = some e' →
      (runConn l d (e :: es)).2 = (e'.id, (e'.retry.getD 0 : ℚ) / 1000)) :=
  ⟨rfl, fun e' h => runConn_last l d (e :: es) e' h⟩

/-- Claim C7 (amended) witness: the amended theorem applied to the
field-less event from state `("a", 5)`. -/
theorem C7_amended_witness :
    (runConn "a" 5 [sseBlank]).2
      = (sseBlank.id, ((sseBlank.retry.getD 0 : ℚ) / 1000)) :=
  (C7_amended_unconditional_overwrite "a" 5 sseBlank []).2 sseBlank rfl

end Monalisten






